import Mathlib

/-!
# Verification of the sentiment-analysis worker core

Shallow embedding of the repository's worker pipeline:
`src/worker/main.py` (`SentimentWorker.process_message`, `setup_rabbitmq`,
`get_metrics`), `src/worker/services/database_service.py`
(`DatabaseService.get_result`, `save_result`),
`src/worker/services/model_service.py` (`ModelService.predict`), and
`src/api/services/queue_service.py` (`QueueService._create_connection`).

External effects (the broker, the TensorFlow model, MongoDB's backend) are
modelled as per-delivery oracle inputs; the Python control flow around them
is translated statement by statement.
-/

namespace SentimentMS

/-- A JSON value, as produced by `json.loads` in `process_message`
(src/worker/main.py line 115). -/
inductive JSON where
  | jnull : JSON
  | jbool : Bool → JSON
  | jnum : Rat → JSON
  | jstr : String → JSON
  | jarr : List JSON → JSON
  | jobj : List (String × JSON) → JSON

mutual

/-- Structural equality of JSON values (the equality MongoDB applies to a
`{"job_id": v}` filter). -/
def JSON.beq : JSON → JSON → Bool
  | JSON.jnull, JSON.jnull => true
  | JSON.jbool a, JSON.jbool b => a == b
  | JSON.jnum a, JSON.jnum b => a == b
  | JSON.jstr a, JSON.jstr b => a == b
  | JSON.jarr xs, JSON.jarr ys => JSON.beqList xs ys
  | JSON.jobj xs, JSON.jobj ys => JSON.beqFields xs ys
  | _, _ => false

/-- Elementwise `JSON.beq` on arrays. -/
def JSON.beqList : List JSON → List JSON → Bool
  | [], [] => true
  | x :: xs, y :: ys => JSON.beq x y && JSON.beqList xs ys
  | _, _ => false

/-- Elementwise `JSON.beq` on object field lists. -/
def JSON.beqFields : List (String × JSON) → List (String × JSON) → Bool
  | [], [] => true
  | (k, v) :: xs, (l, w) :: ys =>
      k == l && (JSON.beq v w && JSON.beqFields xs ys)
  | _, _ => false

end

/-- Python `dict.get(key, default)` on a JSON object's field list. -/
def dictGet (fields : List (String × JSON)) (key : String) (dflt : JSON) : JSON :=
  match fields.find? (fun kv => kv.1 == key) with
  | some kv => kv.2
  | none => dflt

/-- The Result Record document built in `process_message`
(src/worker/main.py lines 136-146) and stored in the `sentiment_results`
collection. `job_id`, `text` and `timestamp` come straight out of the parsed
message, so they are arbitrary JSON values; the other fields are produced by
the worker itself. -/
structure ResultRecord where
  job_id : JSON
  text : JSON
  sentiment : String
  score : Rat
  timestamp : JSON
  processed_at : String
  worker_id : String
  processing_time : Rat
  status : String

/-- The `sentiment_results` MongoDB collection, as a list of documents in
insertion order. The API side creates a unique index on `job_id`
(src/api/services/database_service.py line 32), which is what makes
`insert_one` raise `DuplicateKeyError` on a second document with the same
`job_id`. -/
abbrev Store := List ResultRecord

/-- Errors surfaced by the store backend. `duplicateKey` is pymongo's
`DuplicateKeyError`; `backend` stands for any other exception raised by the
collection operation. -/
inductive DBError where
  | duplicateKey : DBError
  | backend : DBError
deriving DecidableEq

/-- `collection.insert_one(result)` under the unique index on `job_id`:
appends the document, or raises `DuplicateKeyError` when a document with the
same `job_id` already exists. -/
def insertOne (s : Store) (r : ResultRecord) : Except DBError Store :=
  if s.any (fun x => JSON.beq x.job_id r.job_id) then
    Except.error DBError.duplicateKey
  else Except.ok (s ++ [r])

/-- `collection.update_one({"job_id": ...}, {"$set": result})`: replaces the
fields of the first document matching the `job_id` filter with the caller's
document (which carries every field, so the match becomes `r`). -/
def updateOne (s : Store) (jid : JSON) (r : ResultRecord) : Store :=
  match s with
  | [] => []
  | x :: xs =>
      if JSON.beq x.job_id jid then r :: xs else x :: updateOne xs jid r

/-- `collection.find_one({"job_id": job_id})`: first document whose `job_id`
equals the filter value. -/
def findOne (s : Store) (jid : JSON) : Option ResultRecord :=
  s.find? (fun x => JSON.beq x.job_id jid)

/-- `DatabaseService.get_result` (src/worker/services/database_service.py
lines 46-52). `fault = true` models the backend raising during `find_one`;
the except-branch logs and returns `None`. -/
def get_result (fault : Bool) (s : Store) (jid : JSON) : Option ResultRecord :=
  if fault then none
  else findOne s jid

/-- `DatabaseService.save_result` (src/worker/services/database_service.py
lines 54-68). `fault = true` models the backend raising an exception other
than `DuplicateKeyError` during the insert; that branch re-raises. On
`DuplicateKeyError` the fallback `update_one` runs with the caller's own
document. -/
def save_result (fault : Bool) (s : Store) (r : ResultRecord) :
    Except DBError Store :=
  if fault then Except.error DBError.backend
  else
    match insertOne s r with
    | Except.ok s' => Except.ok s'
    | Except.error DBError.duplicateKey => Except.ok (updateOne s r.job_id r)
    | Except.error e => Except.error e

/-- `ModelService.predict` (src/worker/services/model_service.py
lines 116-136). The TensorFlow inference `float(prediction[0][0])` is the
black box `inner`: `Except.error` models any exception raised inside the
try-block, which the except-branch turns into the fallback
`("neutral", 0.5)`. On a score the label is computed by
`"positive" if score >= 0.5 else "negative"`. -/
def predict (inner : Except Unit Rat) : String × Rat :=
  match inner with
  | Except.ok score => (if score ≥ 1/2 then "positive" else "negative", score)
  | Except.error _ => ("neutral", 1/2)

/-- The worker's metrics dictionary (src/worker/main.py lines 27-32).
`start_time` is `time.time()` at construction, modelled as a rational. -/
structure Metrics where
  total_processed : Nat
  total_failed : Nat
  total_duplicates : Nat
  start_time : Rat
deriving DecidableEq

/-- Ways `json.loads(body)` can fail on a delivered message body.
`jsonDecodeError` is `json.JSONDecodeError` (syntactically invalid JSON
text); `unicodeDecodeError` stands for any other exception raised while
deserializing, such as `UnicodeDecodeError` when the bytes body is not
valid UTF-8 — an exception that is not a subclass of `JSONDecodeError`. -/
inductive ParseError where
  | jsonDecodeError : ParseError
  | unicodeDecodeError : ParseError
deriving DecidableEq

/-- The channel operation `process_message` ends with: `basic_ack`,
`basic_nack(requeue=True)` or `basic_nack(requeue=False)` (the last one
dead-letters the message, per the queue's `x-dead-letter-routing-key`). -/
inductive AckAction where
  | ack : AckAction
  | nackRequeue : AckAction
  | nackNoRequeue : AckAction
deriving DecidableEq

/-- Worker state touched by one `process_message` call: the shared store and
the process-local metrics counters. -/
structure WorkerState where
  db : Store
  metrics : Metrics

/-- Per-delivery environment: the outcome of `json.loads(body)`
(`Except.error` carries which kind of exception the deserialization
raised), the black-box model output inside `predict`, fault flags for the
two store calls, and the values the worker reads from clocks and its own
identity. -/
structure MsgEnv where
  parsed : Except ParseError JSON
  modelOut : Except Unit Rat
  getFault : Bool
  saveFault : Bool
  now_iso : String
  processed_at : String
  processing_time : Rat
  worker_id : String

/-- `SentimentWorker.process_message` (src/worker/main.py lines 109-167),
one delivery. The try-block: parse, read `job_id`/`text`/`timestamp` with
their defaults, duplicate-check via `get_result`, `predict`, build the
result document, `save_result`, count, ack. Only `json.JSONDecodeError`
takes the nack-without-requeue branch (lines 157-161); every other
exception — a `UnicodeDecodeError` from a non-UTF-8 body, `.get` on a
non-dict parse result, a store error re-raised by `save_result` — falls to
the generic handler (lines 163-167): nack with requeue and
`total_failed += 1`. -/
def process_message (env : MsgEnv) (st : WorkerState) :
    AckAction × WorkerState :=
  match env.parsed with
  | Except.error ParseError.jsonDecodeError =>
      (AckAction.nackNoRequeue,
       { st with metrics :=
          { st.metrics with total_failed := st.metrics.total_failed + 1 } })
  | Except.error ParseError.unicodeDecodeError =>
      (AckAction.nackRequeue,
       { st with metrics :=
          { st.metrics with total_failed := st.metrics.total_failed + 1 } })
  | Except.ok (JSON.jobj fields) =>
      let job_id := dictGet fields "job_id" (JSON.jstr "unknown")
      let text := dictGet fields "text" (JSON.jstr "")
      let timestamp_str := dictGet fields "timestamp" (JSON.jstr env.now_iso)
      match get_result env.getFault st.db job_id with
      | some _ =>
          (AckAction.ack,
           { st with metrics :=
              { st.metrics with
                total_duplicates := st.metrics.total_duplicates + 1 } })
      | none =>
          let sr := predict env.modelOut
          let result : ResultRecord :=
            { job_id := job_id
              text := text
              sentiment := sr.1
              score := sr.2
              timestamp := timestamp_str
              processed_at := env.processed_at
              worker_id := env.worker_id
              processing_time := env.processing_time
              status := "completed" }
          match save_result env.saveFault st.db result with
          | Except.ok db' =>
              (AckAction.ack,
               { db := db'
                 metrics :=
                  { st.metrics with
                    total_processed := st.metrics.total_processed + 1 } })
          | Except.error _ =>
              (AckAction.nackRequeue,
               { st with metrics :=
                  { st.metrics with
                    total_failed := st.metrics.total_failed + 1 } })
  | Except.ok _ =>
      (AckAction.nackRequeue,
       { st with metrics :=
          { st.metrics with total_failed := st.metrics.total_failed + 1 } })

/-- The report returned by `SentimentWorker.get_metrics`
(src/worker/main.py lines 169-177). -/
structure MetricsReport where
  total_processed : Nat
  total_failed : Nat
  total_duplicates : Nat
  uptime : Rat
  processing_rate : Rat
deriving DecidableEq

/-- `SentimentWorker.get_metrics`: `uptime = time.time() - start_time`,
`processing_rate = total_processed / uptime if uptime > 0 else 0`. -/
def get_metrics (m : Metrics) (now : Rat) : MetricsReport :=
  let uptime := now - m.start_time
  { total_processed := m.total_processed
    total_failed := m.total_failed
    total_duplicates := m.total_duplicates
    uptime := uptime
    processing_rate :=
      if uptime > 0 then (m.total_processed : Rat) / uptime else 0 }

/-- The shared retry loop shape of `SentimentWorker.setup_rabbitmq`
(src/worker/main.py lines 46-107, `max_retries = 5`) and
`QueueService._create_connection` (src/api/services/queue_service.py
lines 20-47, `max_retries = 3`): `for attempt in range(max_retries)`: try to
connect and return on success; on `AMQPConnectionError`, sleep and continue
unless this was the last attempt, in which case re-raise. `outcome k` tells
whether attempt number `k` (0-based) succeeds; the result is the 1-based
count of attempts performed, or the surfaced connection error. -/
def retryConnect (outcome : Nat → Bool) : Nat → Nat → Except Unit Nat
  | 0, _ => Except.error ()
  | fuel + 1, attempt =>
      if outcome attempt then Except.ok (attempt + 1)
      else if fuel = 0 then Except.error ()
      else retryConnect outcome fuel (attempt + 1)

/-- Connection phase of `SentimentWorker.setup_rabbitmq`: 5 bounded
attempts. -/
def setup_rabbitmq (outcome : Nat → Bool) : Except Unit Nat :=
  retryConnect outcome 5 0

/-- `QueueService._create_connection`: 3 bounded attempts. -/
def create_connection (outcome : Nat → Bool) : Except Unit Nat :=
  retryConnect outcome 3 0

/-- `n` consecutive redeliveries of the same message (the broker requeues it
and hands it back): the list of channel decisions and the final worker
state. -/
def iterate_deliveries (env : MsgEnv) : Nat → WorkerState → List AckAction × WorkerState
  | 0, st => ([], st)
  | n + 1, st =>
      let out := process_message env st
      let rest := iterate_deliveries env n out.2
      (out.1 :: rest.1, rest.2)

/-- Consuming a list of deliveries in order, threading the worker state. -/
def run_deliveries : List MsgEnv → WorkerState → WorkerState
  | [], st => st
  | e :: es, st => run_deliveries es (process_message e st).2

/-- A well-formed job envelope for job id `j`, delivered with a working
store and a model that yields `score`. -/
def mkJobEnv (j : String) (score : Rat) : MsgEnv :=
  { parsed := Except.ok (JSON.jobj
      [("job_id", JSON.jstr j), ("text", JSON.jstr "some text"),
       ("timestamp", JSON.jstr "2024-01-01T00:00:00")])
    modelOut := Except.ok score
    getFault := false
    saveFault := false
    now_iso := "now"
    processed_at := "done"
    processing_time := 1/100
    worker_id := "w1" }

/-- Metrics as initialised in `SentimentWorker.__init__`
(src/worker/main.py lines 27-32). -/
def initMetrics (start : Rat) : Metrics :=
  { total_processed := 0
    total_failed := 0
    total_duplicates := 0
    start_time := start }

/-- A worker that has just started: empty store view, zeroed counters. -/
def initState (start : Rat) : WorkerState :=
  { db := [], metrics := initMetrics start }

/-- Sample envelope fields for concrete runs. -/
def sampleFields : List (String × JSON) :=
  [("job_id", JSON.jstr "j1"), ("text", JSON.jstr "I love this"),
   ("timestamp", JSON.jstr "2024-01-01T00:00:00")]

/-- Sample healthy delivery of job `j1`. -/
def sampleEnv : MsgEnv :=
  { parsed := Except.ok (JSON.jobj sampleFields)
    modelOut := Except.ok (9/10)
    getFault := false
    saveFault := false
    now_iso := "now"
    processed_at := "done"
    processing_time := 1/100
    worker_id := "w1" }

/-- Sample delivery whose body is the valid JSON object `{}` (no `job_id`,
no `text`). -/
def emptyObjEnv : MsgEnv :=
  { sampleEnv with parsed := Except.ok (JSON.jobj []) }

/-- The Result Record that `process_message` builds for a parsed object with
field list `fields` under environment `env` (src/worker/main.py
lines 136-146). -/
def builtRecord (env : MsgEnv) (fields : List (String × JSON)) : ResultRecord :=
  { job_id := dictGet fields "job_id" (JSON.jstr "unknown")
    text := dictGet fields "text" (JSON.jstr "")
    sentiment := (predict env.modelOut).1
    score := (predict env.modelOut).2
    timestamp := dictGet fields "timestamp" (JSON.jstr env.now_iso)
    processed_at := env.processed_at
    worker_id := env.worker_id
    processing_time := env.processing_time
    status := "completed" }

/-- The `job_id` value `process_message` extracts from a parsed object. -/
def extractedId (fields : List (String × JSON)) : JSON :=
  dictGet fields "job_id" (JSON.jstr "unknown")

/-- `jid` does not occur as a `job_id` in the store (so the unique index
would let an insert through). -/
def freshId (s : Store) (jid : JSON) : Prop :=
  s.any (fun x => JSON.beq x.job_id jid) = false

instance (s : Store) (jid : JSON) : Decidable (freshId s jid) := by
  unfold freshId
  infer_instance

/- ------------------------------------------------------------------ -/
/- Helper lemmas                                                       -/
/- ------------------------------------------------------------------ -/

mutual

theorem JSON.beq_refl : ∀ a : JSON, JSON.beq a a = true
  | JSON.jnull => rfl
  | JSON.jbool b => by simp [JSON.beq]
  | JSON.jnum q => by simp [JSON.beq]
  | JSON.jstr s => by simp [JSON.beq]
  | JSON.jarr xs => by simpa [JSON.beq] using JSON.beqList_refl xs
  | JSON.jobj fs => by simpa [JSON.beq] using JSON.beqFields_refl fs

theorem JSON.beqList_refl : ∀ xs : List JSON, JSON.beqList xs xs = true
  | [] => rfl
  | x :: xs => by simp [JSON.beqList, JSON.beq_refl x, JSON.beqList_refl xs]

theorem JSON.beqFields_refl : ∀ xs : List (String × JSON), JSON.beqFields xs xs = true
  | [] => rfl
  | (k, v) :: xs => by
      simp [JSON.beqFields, JSON.beq_refl v, JSON.beqFields_refl xs]

end

theorem JSON.beq_of_eq {a b : JSON} (h : a = b) : JSON.beq a b = true :=
  h ▸ JSON.beq_refl a

theorem findOne_eq_none {s : Store} {jid : JSON} (h : freshId s jid) :
    findOne s jid = none := by
  induction s with
  | nil => rfl
  | cons x xs ih =>
      unfold freshId at h ih
      simp only [List.any_cons, Bool.or_eq_false_iff] at h
      simp only [findOne, List.find?_cons, h.1]
      exact ih h.2

theorem findOne_append_found {s : Store} {r : ResultRecord} {jid : JSON}
    (h : freshId s jid) (hr : JSON.beq r.job_id jid = true) :
    findOne (s ++ [r]) jid = some r := by
  induction s with
  | nil => simp [findOne, List.find?, hr]
  | cons x xs ih =>
      unfold freshId at h ih
      simp only [List.any_cons, Bool.or_eq_false_iff] at h
      simpa [findOne, List.find?_cons, h.1] using ih h.2

theorem updateOne_append {s : Store} {r1 r2 : ResultRecord} {jid : JSON}
    (h : freshId s jid) (h1 : JSON.beq r1.job_id jid = true) :
    updateOne (s ++ [r1]) jid r2 = s ++ [r2] := by
  induction s with
  | nil => simp [updateOne, h1]
  | cons x xs ih =>
      unfold freshId at h ih
      simp only [List.any_cons, Bool.or_eq_false_iff] at h
      simp [updateOne, h.1, ih h.2]

theorem filter_of_fresh {s : Store} {jid : JSON} (h : freshId s jid) :
    s.filter (fun x => JSON.beq x.job_id jid) = [] := by
  induction s with
  | nil => rfl
  | cons x xs ih =>
      unfold freshId at h ih
      simp only [List.any_cons, Bool.or_eq_false_iff] at h
      simp [List.filter_cons, h.1, ih h.2]

theorem retryConnect_cases (outcome : Nat → Bool) :
    ∀ (fuel attempt : Nat),
      (∃ i, i < fuel ∧ outcome (attempt + i) = true ∧
        (∀ k < i, outcome (attempt + k) = false) ∧
        retryConnect outcome fuel attempt = Except.ok (attempt + i + 1)) ∨
      ((∀ k < fuel, outcome (attempt + k) = false) ∧
        retryConnect outcome fuel attempt = Except.error ()) := by
  intro fuel
  induction fuel with
  | zero => intro attempt; exact Or.inr ⟨by omega, rfl⟩
  | succ m ih =>
      intro attempt
      by_cases h : outcome attempt = true
      · refine Or.inl ⟨0, by omega, by simpa using h, by omega, ?_⟩
        simp [retryConnect, h]
      · rw [Bool.not_eq_true] at h
        rcases Nat.eq_zero_or_pos m with hm | hm
        · subst hm
          refine Or.inr ⟨?_, by simp [retryConnect, h]⟩
          intro k hk
          interval_cases k
          simpa using h
        · have hstep : retryConnect outcome (m + 1) attempt =
              retryConnect outcome m (attempt + 1) := by
            have hm' : m ≠ 0 := by omega
            simp [retryConnect, h, hm']
          rcases ih (attempt + 1) with ⟨i, hi, hsucc, hbefore, hres⟩ | ⟨hall, hres⟩
          · have hsucc' : outcome (attempt + (i + 1)) = true := by
              have hsh : attempt + (i + 1) = attempt + 1 + i := by omega
              rw [hsh]; exact hsucc
            refine Or.inl ⟨i + 1, by omega, hsucc', ?_, ?_⟩
            · intro k hk
              rcases Nat.eq_zero_or_pos k with hk0 | hk0
              · subst hk0; simpa using h
              · have := hbefore (k - 1) (by omega)
                have hsh : attempt + k = attempt + 1 + (k - 1) := by omega
                rw [hsh]; exact this
            · rw [hstep, hres]
              congr 1
              omega
          · refine Or.inr ⟨?_, by rw [hstep]; exact hres⟩
            intro k hk
            rcases Nat.eq_zero_or_pos k with hk0 | hk0
            · subst hk0; simpa using h
            · have := hall (k - 1) (by omega)
              have hsh : attempt + k = attempt + 1 + (k - 1) := by omega
              rw [hsh]; exact this

theorem save_result_ok (s : Store) (r : ResultRecord) :
    ∃ s', save_result false s r = Except.ok s' := by
  unfold save_result insertOne
  by_cases h : s.any (fun x => JSON.beq x.job_id r.job_id) = true
  · exact ⟨updateOne s r.job_id r, by simp [h]⟩
  · rw [Bool.not_eq_true] at h
    exact ⟨s ++ [r], by simp [h]⟩

theorem process_step_success
    (env : MsgEnv) (fields : List (String × JSON)) (st : WorkerState)
    (hp : env.parsed = Except.ok (JSON.jobj fields))
    (hg : env.getFault = false)
    (hs : env.saveFault = false)
    (hfresh : freshId st.db (extractedId fields)) :
    process_message env st =
      (AckAction.ack,
       { db := st.db ++ [builtRecord env fields]
         metrics := { st.metrics with
            total_processed := st.metrics.total_processed + 1 } }) := by
  have hget : get_result env.getFault st.db
      (dictGet fields "job_id" (JSON.jstr "unknown")) = none := by
    rw [hg]
    simpa [get_result] using findOne_eq_none hfresh
  have hins : st.db.any (fun x =>
      JSON.beq x.job_id (dictGet fields "job_id" (JSON.jstr "unknown"))) = false :=
    hfresh
  simp [process_message, hp, hget, save_result, hs, insertOne, hins,
    builtRecord, extractedId]

theorem process_step_duplicate
    (env : MsgEnv) (fields : List (String × JSON)) (st : WorkerState)
    (r : ResultRecord)
    (hp : env.parsed = Except.ok (JSON.jobj fields))
    (hg : env.getFault = false)
    (hfound : findOne st.db (extractedId fields) = some r) :
    process_message env st =
      (AckAction.ack,
       { st with metrics := { st.metrics with
          total_duplicates := st.metrics.total_duplicates + 1 } }) := by
  have hget : get_result env.getFault st.db
      (dictGet fields "job_id" (JSON.jstr "unknown")) = some r := by
    rw [hg]
    simpa [get_result, extractedId] using hfound
  simp [process_message, hp, hget]

theorem process_step_savefail
    (env : MsgEnv) (fields : List (String × JSON)) (st : WorkerState)
    (hp : env.parsed = Except.ok (JSON.jobj fields))
    (hg : env.getFault = false)
    (hs : env.saveFault = true)
    (hfresh : freshId st.db (extractedId fields)) :
    process_message env st =
      (AckAction.nackRequeue,
       { st with metrics := { st.metrics with
          total_failed := st.metrics.total_failed + 1 } }) := by
  have hget : get_result env.getFault st.db
      (dictGet fields "job_id" (JSON.jstr "unknown")) = none := by
    rw [hg]
    simpa [get_result] using findOne_eq_none hfresh
  simp [process_message, hp, hget, save_result, hs]

theorem run_fresh_metrics (score : Rat) :
    ∀ (jids : List String) (st : WorkerState),
      jids.Nodup →
      (∀ j ∈ jids, freshId st.db (JSON.jstr j)) →
      (run_deliveries (jids.map (fun j => mkJobEnv j score)) st).metrics =
        { st.metrics with
          total_processed := st.metrics.total_processed + jids.length } := by
  intro jids
  induction jids with
  | nil => intro st _ _; simp [run_deliveries]
  | cons j rest ih =>
      intro st hnd hfresh
      obtain ⟨hj, hnd'⟩ := List.nodup_cons.mp hnd
      have hid : extractedId
          [("job_id", JSON.jstr j), ("text", JSON.jstr "some text"),
           ("timestamp", JSON.jstr "2024-01-01T00:00:00")] = JSON.jstr j := rfl
      have hstep := process_step_success (mkJobEnv j score)
        [("job_id", JSON.jstr j), ("text", JSON.jstr "some text"),
         ("timestamp", JSON.jstr "2024-01-01T00:00:00")] st rfl rfl rfl
        (by rw [hid]; exact hfresh j (by simp))
      have hrecid : (builtRecord (mkJobEnv j score)
          [("job_id", JSON.jstr j), ("text", JSON.jstr "some text"),
           ("timestamp", JSON.jstr "2024-01-01T00:00:00")]).job_id =
          JSON.jstr j := rfl
      have hfresh' : ∀ j' ∈ rest,
          freshId (st.db ++ [builtRecord (mkJobEnv j score)
            [("job_id", JSON.jstr j), ("text", JSON.jstr "some text"),
             ("timestamp", JSON.jstr "2024-01-01T00:00:00")]]) (JSON.jstr j') := by
        intro j' hj'
        have h1 : st.db.any (fun x => JSON.beq x.job_id (JSON.jstr j')) = false :=
          hfresh j' (by simp [hj'])
        have hne : (j == j') = false := by
          refine beq_eq_false_iff_ne.mpr ?_
          intro hjj
          exact hj (hjj ▸ hj')
        unfold freshId
        simp [List.any_append, h1, hrecid, JSON.beq, hne]
      have hrest := ih (WorkerState.mk
          (st.db ++ [builtRecord (mkJobEnv j score)
            [("job_id", JSON.jstr j), ("text", JSON.jstr "some text"),
             ("timestamp", JSON.jstr "2024-01-01T00:00:00")]])
          { st.metrics with
            total_processed := st.metrics.total_processed + 1 })
        hnd' hfresh'
      simp only [List.map_cons, run_deliveries, hstep]
      rw [hrest]
      simp only [List.length_cons]
      have hnat : st.metrics.total_processed + 1 + rest.length =
          st.metrics.total_processed + (rest.length + 1) := by omega
      rw [hnat]

/- ------------------------------------------------------------------ -/
/- Claims                                                              -/
/- ------------------------------------------------------------------ -/

/-- C1: delivering the same job message twice yields exactly one stored
Result Record for its job_id; the second delivery hits the `get_result`
duplicate check, increments the duplicate counter exactly once,
acknowledges, and — whatever the classifier or the store's write path would
do (`m'`, `sf'` are arbitrary) — neither invokes them to change the outcome
nor writes to the store (the resulting state carries the unchanged
database). -/
theorem duplicate_delivery_single_record
    (env : MsgEnv) (fields : List (String × JSON)) (st : WorkerState)
    (hp : env.parsed = Except.ok (JSON.jobj fields))
    (hg : env.getFault = false)
    (hs : env.saveFault = false)
    (hfresh : freshId st.db (extractedId fields)) :
    (((process_message env st).2.db.filter
        (fun x => JSON.beq x.job_id (extractedId fields))).length = 1) ∧
    (∀ (m' : Except Unit Rat) (sf' : Bool),
      process_message { env with modelOut := m', saveFault := sf' }
          (process_message env st).2 =
        (AckAction.ack,
         { (process_message env st).2 with metrics :=
            { (process_message env st).2.metrics with
              total_duplicates :=
                (process_message env st).2.metrics.total_duplicates + 1 } })) := by
  have hstep := process_step_success env fields st hp hg hs hfresh
  constructor
  · rw [hstep]
    have hid : JSON.beq (builtRecord env fields).job_id (extractedId fields) = true :=
      JSON.beq_of_eq rfl
    simp [List.filter_append, filter_of_fresh hfresh, hid]
  · intro m' sf'
    have hfound : findOne (process_message env st).2.db (extractedId fields) =
        some (builtRecord env fields) := by
      rw [hstep]
      exact findOne_append_found hfresh (JSON.beq_of_eq rfl)
    exact process_step_duplicate { env with modelOut := m', saveFault := sf' }
      fields (process_message env st).2 (builtRecord env fields) hp hg hfound

/-- Witness for C1 at the concrete job `j1` delivered twice from a fresh
worker; on the redelivery even a failing classifier and a failing store
write change nothing. -/
theorem duplicate_delivery_single_record_witness :
    (((process_message sampleEnv (initState 0)).2.db.filter
        (fun x => JSON.beq x.job_id (extractedId sampleFields))).length = 1) ∧
    (process_message
        { sampleEnv with modelOut := Except.error (), saveFault := true }
        (process_message sampleEnv (initState 0)).2 =
      (AckAction.ack,
       { (process_message sampleEnv (initState 0)).2 with metrics :=
          { (process_message sampleEnv (initState 0)).2.metrics with
            total_duplicates :=
              (process_message sampleEnv (initState 0)).2.metrics.total_duplicates
                + 1 } })) :=
  ⟨(duplicate_delivery_single_record sampleEnv sampleFields (initState 0)
      rfl rfl rfl rfl).1,
   (duplicate_delivery_single_record sampleEnv sampleFields (initState 0)
      rfl rfl rfl rfl).2 (Except.error ()) true⟩

/-- C2 counterexample: when the model inside `predict` yields the score 2
(outside [0,1]), the worker does not reject the job — it acknowledges,
counts it as processed, leaves the failed counter at 0, and stores a
completed Result Record carrying the out-of-range score 2. -/
theorem out_of_range_score_stored_cex :
    (2 : Rat) > 1 ∧
    (process_message { sampleEnv with modelOut := Except.ok 2 }
        (initState 0)).1 = AckAction.ack ∧
    (process_message { sampleEnv with modelOut := Except.ok 2 }
        (initState 0)).2.metrics.total_failed = 0 ∧
    (process_message { sampleEnv with modelOut := Except.ok 2 }
        (initState 0)).2.metrics.total_processed = 1 ∧
    (process_message { sampleEnv with modelOut := Except.ok 2 }
        (initState 0)).2.db.map (fun r => (r.score, r.status)) =
      [((2 : Rat), "completed")] := by
  refine ⟨by norm_num, rfl, rfl, rfl, ?_⟩
  simp [process_message, sampleEnv, sampleFields, initState, initMetrics,
    get_result, findOne, dictGet, predict, save_result, insertOne, builtRecord]

/-- C2 amended: the worker performs no validation of the classifier output.
Whatever score `predict` returns — including values outside [0,1] — is
stored unchanged in a completed Result Record, the job is counted as
processed and acknowledged, and the failed counter is untouched; only the
label is guaranteed, by construction of `predict`, to lie in
{positive, negative, neutral}. -/
theorem classifier_output_stored_unvalidated
    (env : MsgEnv) (fields : List (String × JSON)) (st : WorkerState)
    (hp : env.parsed = Except.ok (JSON.jobj fields))
    (hg : env.getFault = false)
    (hs : env.saveFault = false)
    (hfresh : freshId st.db (extractedId fields)) :
    process_message env st =
      (AckAction.ack,
       { db := st.db ++ [builtRecord env fields]
         metrics := { st.metrics with
            total_processed := st.metrics.total_processed + 1 } }) ∧
    (builtRecord env fields).score = (predict env.modelOut).2 ∧
    (builtRecord env fields).status = "completed" ∧
    (process_message env st).2.metrics.total_failed = st.metrics.total_failed ∧
    (builtRecord env fields).sentiment ∈
      (["positive", "negative", "neutral"] : List String) := by
  have hstep := process_step_success env fields st hp hg hs hfresh
  refine ⟨hstep, rfl, rfl, by rw [hstep], ?_⟩
  show (predict env.modelOut).1 ∈ _
  rcases env.modelOut with e | score
  · simp [predict]
  · rcases le_or_lt ((2 : Rat)⁻¹) score with hsc | hsc
    · have hpos : (predict (Except.ok score)).1 = "positive" := by
        simp [predict, ge_iff_le, hsc]
      rw [hpos]; simp
    · have hneg : (predict (Except.ok score)).1 = "negative" := by
        simp [predict, ge_iff_le, not_le.mpr hsc]
      rw [hneg]; simp

/-- Witness for the amended C2 at the out-of-range score 2: the record is
stored with score exactly 2 and the failed counter is unchanged. -/
theorem classifier_output_stored_unvalidated_witness :
    process_message { sampleEnv with modelOut := Except.ok 2 } (initState 0) =
      (AckAction.ack,
       { db := (initState 0).db ++
           [builtRecord { sampleEnv with modelOut := Except.ok 2 } sampleFields]
         metrics := { (initState 0).metrics with
            total_processed := (initState 0).metrics.total_processed + 1 } }) ∧
    (builtRecord { sampleEnv with modelOut := Except.ok 2 } sampleFields).score =
      (predict { sampleEnv with modelOut := Except.ok 2 }.modelOut).2 ∧
    (builtRecord { sampleEnv with modelOut := Except.ok 2 } sampleFields).status =
      "completed" ∧
    (process_message { sampleEnv with modelOut := Except.ok 2 }
        (initState 0)).2.metrics.total_failed =
      (initState 0).metrics.total_failed ∧
    (builtRecord { sampleEnv with modelOut := Except.ok 2 } sampleFields).sentiment ∈
      (["positive", "negative", "neutral"] : List String) :=
  classifier_output_stored_unvalidated { sampleEnv with modelOut := Except.ok 2 }
    sampleFields (initState 0) rfl rfl rfl rfl

/-- C3 counterexample: when the model inside `predict` raises, the failure
is not mapped to the requeue path — the worker acknowledges, the failed
counter stays 0, and a Result Record with the fallback
`("neutral", 0.5)` is stored. -/
theorem classifier_failure_stored_cex :
    (process_message { sampleEnv with modelOut := Except.error () }
        (initState 0)).1 = AckAction.ack ∧
    (process_message { sampleEnv with modelOut := Except.error () }
        (initState 0)).1 ≠ AckAction.nackRequeue ∧
    (process_message { sampleEnv with modelOut := Except.error () }
        (initState 0)).2.metrics.total_failed = 0 ∧
    (process_message { sampleEnv with modelOut := Except.error () }
        (initState 0)).2.db.map (fun r => (r.sentiment, r.score, r.status)) =
      [("neutral", (1 : Rat)/2, "completed")] := by
  refine ⟨rfl, by decide, rfl, ?_⟩
  simp [process_message, sampleEnv, sampleFields, initState, initMetrics,
    get_result, findOne, dictGet, predict, save_result, insertOne, builtRecord]

/-- C3 amended: a failure inside the classifier is caught by `predict`
itself, which returns the fallback `("neutral", 0.5)`; the worker then
stores this fallback as a normal completed Result Record, increments the
processed counter and acknowledges — the requeue path is not taken and the
failed counter is not incremented. -/
theorem classifier_failure_fallback_stored
    (env : MsgEnv) (fields : List (String × JSON)) (st : WorkerState)
    (hp : env.parsed = Except.ok (JSON.jobj fields))
    (hg : env.getFault = false)
    (hs : env.saveFault = false)
    (hfresh : freshId st.db (extractedId fields))
    (e : Unit) (hm : env.modelOut = Except.error e) :
    process_message env st =
      (AckAction.ack,
       { db := st.db ++ [builtRecord env fields]
         metrics := { st.metrics with
            total_processed := st.metrics.total_processed + 1 } }) ∧
    (builtRecord env fields).sentiment = "neutral" ∧
    (builtRecord env fields).score = 1/2 ∧
    (process_message env st).2.metrics.total_failed = st.metrics.total_failed := by
  have hstep := process_step_success env fields st hp hg hs hfresh
  refine ⟨hstep, ?_, ?_, by rw [hstep]⟩
  · show (predict env.modelOut).1 = _
    rw [hm]; rfl
  · show (predict env.modelOut).2 = _
    rw [hm]; rfl

/-- Witness for the amended C3: the concrete failing-classifier delivery
stores the neutral fallback and leaves the failed counter unchanged. -/
theorem classifier_failure_fallback_stored_witness :
    process_message { sampleEnv with modelOut := Except.error () } (initState 0) =
      (AckAction.ack,
       { db := (initState 0).db ++
           [builtRecord { sampleEnv with modelOut := Except.error () } sampleFields]
         metrics := { (initState 0).metrics with
            total_processed := (initState 0).metrics.total_processed + 1 } }) ∧
    (builtRecord { sampleEnv with modelOut := Except.error () }
        sampleFields).sentiment = "neutral" ∧
    (builtRecord { sampleEnv with modelOut := Except.error () }
        sampleFields).score = 1/2 ∧
    (process_message { sampleEnv with modelOut := Except.error () }
        (initState 0)).2.metrics.total_failed =
      (initState 0).metrics.total_failed :=
  classifier_failure_fallback_stored { sampleEnv with modelOut := Except.error () }
    sampleFields (initState 0) rfl rfl rfl rfl () rfl

/-- C5: after a successful parse, a processing exception (here: the store
error re-raised by `save_result`) is handled by reject-with-requeue with
the failed counter incremented, and nothing is written; since no attempt
counter exists, `n` consecutive redeliveries of a permanently failing job
all take the requeue path — never the dead-letter path — for every `n`,
with the failed counter growing by `n`. -/
theorem processing_failure_requeued_unboundedly
    (env : MsgEnv) (fields : List (String × JSON)) (st : WorkerState)
    (hp : env.parsed = Except.ok (JSON.jobj fields))
    (hg : env.getFault = false)
    (hs : env.saveFault = true)
    (hfresh : freshId st.db (extractedId fields)) :
    ∀ n, iterate_deliveries env n st =
      (List.replicate n AckAction.nackRequeue,
       { st with metrics := { st.metrics with
          total_failed := st.metrics.total_failed + n } }) := by
  intro n
  induction n generalizing st with
  | zero =>
      simp [iterate_deliveries]
  | succ m ih =>
      have hstep := process_step_savefail env fields st hp hg hs hfresh
      have hfresh' : freshId
          ({ st with metrics := { st.metrics with
              total_failed := st.metrics.total_failed + 1 }} : WorkerState).db
          (extractedId fields) := hfresh
      have hrest := ih _ hfresh'
      simp only [iterate_deliveries, hstep, hrest, List.replicate_succ]
      have hnat : st.metrics.total_failed + 1 + m =
          st.metrics.total_failed + (m + 1) := by omega
      rw [hnat]

/-- Witness for C5: three consecutive redeliveries of job `j1` with a
failing store are all requeued and counted as failed. -/
theorem processing_failure_requeued_unboundedly_witness :
    iterate_deliveries { sampleEnv with saveFault := true } 3 (initState 0) =
      (List.replicate 3 AckAction.nackRequeue,
       { initState 0 with metrics := { (initState 0).metrics with
          total_failed := (initState 0).metrics.total_failed + 3 } }) :=
  processing_failure_requeued_unboundedly { sampleEnv with saveFault := true }
    sampleFields (initState 0) rfl rfl rfl rfl 3

/-- C6: `save_result` first attempts the insert; for a fresh job_id the
insert succeeds, and a second caller saving a record with the same job_id
hits the unique-key conflict and falls back to an in-place update with its
own fields (last-writer-wins), so after the race exactly one record with
that job_id exists and — for any store and record — no store error escapes
`save_result` when the backend itself does not fail. -/
theorem upsert_conflict_last_writer_wins
    (s : Store) (r1 r2 : ResultRecord)
    (hid : r1.job_id = r2.job_id)
    (hfresh : freshId s r2.job_id) :
    save_result false s r1 = Except.ok (s ++ [r1]) ∧
    save_result false (s ++ [r1]) r2 = Except.ok (s ++ [r2]) ∧
    ((s ++ [r2]).filter (fun x => JSON.beq x.job_id r2.job_id)).length = 1 ∧
    (∀ (s' : Store) (r' : ResultRecord),
      ∃ s'', save_result false s' r' = Except.ok s'') := by
  have hfresh1 : s.any (fun x => JSON.beq x.job_id r1.job_id) = false := by
    show freshId s r1.job_id
    rw [hid]; exact hfresh
  refine ⟨?_, ?_, ?_, fun s' r' => save_result_ok s' r'⟩
  · simp [save_result, insertOne, hfresh1]
  · have hany : (s ++ [r1]).any (fun x => JSON.beq x.job_id r2.job_id) = true := by
      simp [List.any_append, JSON.beq_of_eq hid]
    have hupd : updateOne (s ++ [r1]) r2.job_id r2 = s ++ [r2] :=
      updateOne_append hfresh (JSON.beq_of_eq hid)
    simp [save_result, insertOne, hany, hupd]
  · simp [List.filter_append, filter_of_fresh hfresh, JSON.beq_refl]

/-- Witness for C6: two workers race on the fresh job `j1` against an empty
store; the first insert wins, the second call takes the conflict-update
path, and exactly one record remains, carrying the second caller's
fields. -/
theorem upsert_conflict_last_writer_wins_witness :
    save_result false ([] : Store) (builtRecord sampleEnv sampleFields) =
      Except.ok (([] : Store) ++ [builtRecord sampleEnv sampleFields]) ∧
    save_result false (([] : Store) ++ [builtRecord sampleEnv sampleFields])
        (builtRecord { sampleEnv with worker_id := "w2" } sampleFields) =
      Except.ok (([] : Store) ++
        [builtRecord { sampleEnv with worker_id := "w2" } sampleFields]) ∧
    ((([] : Store) ++
        [builtRecord { sampleEnv with worker_id := "w2" } sampleFields]).filter
        (fun x => JSON.beq x.job_id
          (builtRecord { sampleEnv with worker_id := "w2" } sampleFields).job_id)).length
      = 1 ∧
    (∃ s'', save_result false ([] : Store)
        (builtRecord sampleEnv sampleFields) = Except.ok s'') :=
  ⟨(upsert_conflict_last_writer_wins ([] : Store)
      (builtRecord sampleEnv sampleFields)
      (builtRecord { sampleEnv with worker_id := "w2" } sampleFields) rfl rfl).1,
   (upsert_conflict_last_writer_wins ([] : Store)
      (builtRecord sampleEnv sampleFields)
      (builtRecord { sampleEnv with worker_id := "w2" } sampleFields) rfl rfl).2.1,
   (upsert_conflict_last_writer_wins ([] : Store)
      (builtRecord sampleEnv sampleFields)
      (builtRecord { sampleEnv with worker_id := "w2" } sampleFields) rfl rfl).2.2.1,
   (upsert_conflict_last_writer_wins ([] : Store)
      (builtRecord sampleEnv sampleFields)
      (builtRecord { sampleEnv with worker_id := "w2" } sampleFields) rfl rfl).2.2.2
     ([] : Store) (builtRecord sampleEnv sampleFields)⟩

/-- C7 counterexample: with one completed record for `j1` already stored, a
store failure during the duplicate-check read is not surfaced: the worker
does not requeue, the failed counter stays 0, and the job is fully
reprocessed (processed counter reaches 2) as if no prior result existed. -/
theorem read_fault_swallowed_cex :
    ((process_message sampleEnv (initState 0)).2.db.map (fun r => r.job_id) =
      [JSON.jstr "j1"]) ∧
    (process_message { sampleEnv with getFault := true }
        (process_message sampleEnv (initState 0)).2).1 = AckAction.ack ∧
    (process_message { sampleEnv with getFault := true }
        (process_message sampleEnv (initState 0)).2).1 ≠ AckAction.nackRequeue ∧
    (process_message { sampleEnv with getFault := true }
        (process_message sampleEnv (initState 0)).2).2.metrics.total_failed = 0 ∧
    (process_message { sampleEnv with getFault := true }
        (process_message sampleEnv (initState 0)).2).2.metrics.total_processed = 2 := by
  refine ⟨?_, rfl, by decide, rfl, rfl⟩
  simp [process_message, sampleEnv, sampleFields, initState, initMetrics,
    get_result, findOne, dictGet, predict, save_result, insertOne, builtRecord]

/-- C7 amended: a store failure during `save_result` does surface as a
per-message error taking the reject-with-requeue path with the failed
counter incremented; but a store failure during the duplicate-check read is
swallowed by `get_result`, which returns none, and processing continues as
if no prior result existed — the message is classified again, counted as
processed, and acknowledged. -/
theorem store_failure_paths
    (env : MsgEnv) (fields : List (String × JSON)) (st : WorkerState)
    (hp : env.parsed = Except.ok (JSON.jobj fields)) :
    (env.getFault = false → env.saveFault = true →
      freshId st.db (extractedId fields) →
      process_message env st =
        (AckAction.nackRequeue,
         { st with metrics := { st.metrics with
            total_failed := st.metrics.total_failed + 1 } })) ∧
    (env.getFault = true → env.saveFault = false →
      get_result env.getFault st.db (extractedId fields) = none ∧
      (process_message env st).1 = AckAction.ack ∧
      (process_message env st).2.metrics.total_processed =
        st.metrics.total_processed + 1 ∧
      (process_message env st).2.metrics.total_failed =
        st.metrics.total_failed) := by
  constructor
  · intro hg hs hfresh
    exact process_step_savefail env fields st hp hg hs hfresh
  · intro hg hs
    have hget : get_result env.getFault st.db
        (dictGet fields "job_id" (JSON.jstr "unknown")) = none := by
      rw [hg]; rfl
    obtain ⟨s'', hsave⟩ := save_result_ok st.db
      { job_id := dictGet fields "job_id" (JSON.jstr "unknown")
        text := dictGet fields "text" (JSON.jstr "")
        sentiment := (predict env.modelOut).1
        score := (predict env.modelOut).2
        timestamp := dictGet fields "timestamp" (JSON.jstr env.now_iso)
        processed_at := env.processed_at
        worker_id := env.worker_id
        processing_time := env.processing_time
        status := "completed" }
    refine ⟨by simpa [extractedId] using hget, ?_⟩
    simp [process_message, hp, hget, hs, hsave]

/-- Witness for the amended C7: the save-failure leg at a failing store and
the read-failure leg at a populated-read fault, both on concrete
deliveries of job `j1`. -/
theorem store_failure_paths_witness :
    (process_message { sampleEnv with saveFault := true } (initState 0) =
      (AckAction.nackRequeue,
       { initState 0 with metrics := { (initState 0).metrics with
          total_failed := (initState 0).metrics.total_failed + 1 } })) ∧
    (get_result true (initState 0).db (extractedId sampleFields) = none ∧
      (process_message { sampleEnv with getFault := true } (initState 0)).1 =
        AckAction.ack ∧
      (process_message { sampleEnv with getFault := true }
          (initState 0)).2.metrics.total_processed =
        (initState 0).metrics.total_processed + 1 ∧
      (process_message { sampleEnv with getFault := true }
          (initState 0)).2.metrics.total_failed =
        (initState 0).metrics.total_failed) :=
  ⟨(store_failure_paths { sampleEnv with saveFault := true } sampleFields
      (initState 0) rfl).1 rfl rfl rfl,
   (store_failure_paths { sampleEnv with getFault := true } sampleFields
      (initState 0) rfl).2 rfl rfl⟩

/-- C9: the metrics accessor computes `uptime = now - start_time` and
`processing_rate = total_processed / uptime` (0 when uptime is not
positive); after a run of N distinct healthy jobs from a fresh worker —
which leaves failed = 0 and duplicates = 0 — it reports
`processed = N` and `processing_rate = N / (now - start)`. -/
theorem metrics_throughput
    (jids : List String) (score start now : Rat)
    (hnd : jids.Nodup) (hpos : 0 < now - start) :
    ((run_deliveries (jids.map (fun j => mkJobEnv j score))
        (initState start)).metrics.total_processed = jids.length) ∧
    ((run_deliveries (jids.map (fun j => mkJobEnv j score))
        (initState start)).metrics.total_failed = 0) ∧
    ((run_deliveries (jids.map (fun j => mkJobEnv j score))
        (initState start)).metrics.total_duplicates = 0) ∧
    ((get_metrics (run_deliveries (jids.map (fun j => mkJobEnv j score))
        (initState start)).metrics now).uptime = now - start) ∧
    ((get_metrics (run_deliveries (jids.map (fun j => mkJobEnv j score))
        (initState start)).metrics now).total_processed = jids.length) ∧
    ((get_metrics (run_deliveries (jids.map (fun j => mkJobEnv j score))
        (initState start)).metrics now).processing_rate =
      (jids.length : Rat) / (now - start)) := by
  have hm := run_fresh_metrics score jids (initState start) hnd
    (fun j _ => rfl)
  rw [hm]
  refine ⟨by simp [initState, initMetrics], rfl, rfl, rfl, ?_, ?_⟩
  · simp [get_metrics, initState, initMetrics]
  · simp [get_metrics, initState, initMetrics, hpos]

/-- Witness for C9: three distinct jobs processed from start time 0,
read at time 10: processed = 3, no failures or duplicates, rate 3/10. -/
theorem metrics_throughput_witness :
    ((run_deliveries (["a", "b", "c"].map (fun j => mkJobEnv j (9/10)))
        (initState 0)).metrics.total_processed = ["a", "b", "c"].length) ∧
    ((run_deliveries (["a", "b", "c"].map (fun j => mkJobEnv j (9/10)))
        (initState 0)).metrics.total_failed = 0) ∧
    ((run_deliveries (["a", "b", "c"].map (fun j => mkJobEnv j (9/10)))
        (initState 0)).metrics.total_duplicates = 0) ∧
    ((get_metrics (run_deliveries (["a", "b", "c"].map (fun j => mkJobEnv j (9/10)))
        (initState 0)).metrics 10).uptime = 10 - 0) ∧
    ((get_metrics (run_deliveries (["a", "b", "c"].map (fun j => mkJobEnv j (9/10)))
        (initState 0)).metrics 10).total_processed = ["a", "b", "c"].length) ∧
    ((get_metrics (run_deliveries (["a", "b", "c"].map (fun j => mkJobEnv j (9/10)))
        (initState 0)).metrics 10).processing_rate =
      ((["a", "b", "c"].length : Nat) : Rat) / (10 - 0)) :=
  metrics_throughput ["a", "b", "c"] (9/10) 0 10 (by decide) (by norm_num)

/-- C10: a body that parses as a JSON object is never dead-lettered, even
with required fields absent: a missing `job_id` defaults to the string
"unknown" and a missing `text` to the empty string, so the message is
classified and stored under `job_id` "unknown"; a second object that also
lacks `job_id` then collides with it and is absorbed as a duplicate
(acknowledged, duplicate counter +1, store unchanged). -/
theorem json_object_never_dead_lettered
    (env : MsgEnv) (fields : List (String × JSON)) (st : WorkerState)
    (hp : env.parsed = Except.ok (JSON.jobj fields)) :
    ((process_message env st).1 ≠ AckAction.nackNoRequeue) ∧
    (fields.find? (fun kv => kv.1 == "job_id") = none →
      extractedId fields = JSON.jstr "unknown") ∧
    (fields.find? (fun kv => kv.1 == "text") = none →
      dictGet fields "text" (JSON.jstr "") = JSON.jstr "") ∧
    (env.getFault = false → env.saveFault = false →
      freshId st.db (extractedId fields) →
      process_message env st =
        (AckAction.ack,
         { db := st.db ++ [builtRecord env fields]
           metrics := { st.metrics with
              total_processed := st.metrics.total_processed + 1 } })) ∧
    (∀ (env2 : MsgEnv) (fields2 : List (String × JSON)),
      env2.parsed = Except.ok (JSON.jobj fields2) →
      env2.getFault = false →
      fields.find? (fun kv => kv.1 == "job_id") = none →
      fields2.find? (fun kv => kv.1 == "job_id") = none →
      env.getFault = false → env.saveFault = false →
      freshId st.db (JSON.jstr "unknown") →
      process_message env2 (process_message env st).2 =
        (AckAction.ack,
         { (process_message env st).2 with metrics :=
            { (process_message env st).2.metrics with
              total_duplicates :=
                (process_message env st).2.metrics.total_duplicates + 1 } })) := by
  refine ⟨?_, ?_, ?_, ?_, ?_⟩
  · intro hbad
    rcases hget : get_result env.getFault st.db
        (dictGet fields "job_id" (JSON.jstr "unknown")) with _ | r
    · rcases hsv : save_result env.saveFault st.db
          { job_id := dictGet fields "job_id" (JSON.jstr "unknown")
            text := dictGet fields "text" (JSON.jstr "")
            sentiment := (predict env.modelOut).1
            score := (predict env.modelOut).2
            timestamp := dictGet fields "timestamp" (JSON.jstr env.now_iso)
            processed_at := env.processed_at
            worker_id := env.worker_id
            processing_time := env.processing_time
            status := "completed" } with s' | e
      · simp [process_message, hp, hget, hsv] at hbad
      · simp [process_message, hp, hget, hsv] at hbad
    · simp [process_message, hp, hget] at hbad
  · intro hmiss
    simp [extractedId, dictGet, hmiss]
  · intro hmiss
    simp [dictGet, hmiss]
  · intro hg hs hfresh
    exact process_step_success env fields st hp hg hs hfresh
  · intro env2 fields2 hp2 hg2 hmiss1 hmiss2 hg hs hfresh
    have hid1 : extractedId fields = JSON.jstr "unknown" := by
      simp [extractedId, dictGet, hmiss1]
    have hid2 : extractedId fields2 = JSON.jstr "unknown" := by
      simp [extractedId, dictGet, hmiss2]
    have hfresh1 : freshId st.db (extractedId fields) := by
      rw [hid1]; exact hfresh
    have hstep := process_step_success env fields st hp hg hs hfresh1
    have hfound : findOne (process_message env st).2.db (extractedId fields2) =
        some (builtRecord env fields) := by
      rw [hstep, hid2]
      refine findOne_append_found hfresh ?_
      show JSON.beq (extractedId fields) (JSON.jstr "unknown") = true
      rw [hid1]
      exact JSON.beq_refl _
    exact process_step_duplicate env2 fields2 (process_message env st).2
      (builtRecord env fields) hp2 hg2 hfound

/-- Witness for C10: the empty JSON object `{}` delivered twice to a fresh
worker: not dead-lettered, stored under the default id "unknown" with empty
text, and the second delivery absorbed as a duplicate. -/
theorem json_object_never_dead_lettered_witness :
    ((process_message emptyObjEnv (initState 0)).1 ≠ AckAction.nackNoRequeue) ∧
    extractedId [] = JSON.jstr "unknown" ∧
    dictGet [] "text" (JSON.jstr "") = JSON.jstr "" ∧
    (process_message emptyObjEnv (initState 0) =
      (AckAction.ack,
       { db := (initState 0).db ++ [builtRecord emptyObjEnv []]
         metrics := { (initState 0).metrics with
            total_processed := (initState 0).metrics.total_processed + 1 } })) ∧
    (process_message { emptyObjEnv with worker_id := "w2" }
        (process_message emptyObjEnv (initState 0)).2 =
      (AckAction.ack,
       { (process_message emptyObjEnv (initState 0)).2 with metrics :=
          { (process_message emptyObjEnv (initState 0)).2.metrics with
            total_duplicates :=
              (process_message emptyObjEnv
                (initState 0)).2.metrics.total_duplicates + 1 } })) :=
  ⟨(json_object_never_dead_lettered emptyObjEnv [] (initState 0) rfl).1,
   (json_object_never_dead_lettered emptyObjEnv [] (initState 0) rfl).2.1 rfl,
   (json_object_never_dead_lettered emptyObjEnv [] (initState 0) rfl).2.2.1 rfl,
   (json_object_never_dead_lettered emptyObjEnv [] (initState 0) rfl).2.2.2.1
     rfl rfl rfl,
   (json_object_never_dead_lettered emptyObjEnv [] (initState 0) rfl).2.2.2.2
     { emptyObjEnv with worker_id := "w2" } [] rfl rfl rfl rfl rfl rfl rfl⟩

/-- C4 counterexample: a body that fails to deserialize with an exception
other than `json.JSONDecodeError` — a `UnicodeDecodeError` from non-UTF-8
bytes — bypasses the dead-letter branch: the worker rejects it WITH
requeue, so the message returns to the main queue and is retried. -/
theorem non_utf8_body_requeued_cex :
    process_message
        { sampleEnv with parsed := Except.error ParseError.unicodeDecodeError }
        (initState 0) =
      (AckAction.nackRequeue,
       { initState 0 with metrics :=
          { (initState 0).metrics with
            total_failed := (initState 0).metrics.total_failed + 1 } }) ∧
    AckAction.nackRequeue ≠ AckAction.nackNoRequeue := by
  exact ⟨rfl, by decide⟩

/-- C4 amended: a body whose deserialization raises `json.JSONDecodeError`
is rejected without requeue (routed to the dead-letter queue), counted as
failed, with nothing written to the Result Store, and never retried on the
main queue; but a body that fails to deserialize with any other exception
— such as `UnicodeDecodeError` on non-UTF-8 bytes — falls to the generic
handler and is rejected with requeue, so it is retried on the main queue
rather than dead-lettered. -/
theorem deserialization_failure_paths (env : MsgEnv) (st : WorkerState) :
    (env.parsed = Except.error ParseError.jsonDecodeError →
      process_message env st =
        (AckAction.nackNoRequeue,
         { st with metrics :=
            { st.metrics with
              total_failed := st.metrics.total_failed + 1 } })) ∧
    (env.parsed = Except.error ParseError.unicodeDecodeError →
      process_message env st =
        (AckAction.nackRequeue,
         { st with metrics :=
            { st.metrics with
              total_failed := st.metrics.total_failed + 1 } })) := by
  constructor
  · intro hp
    simp [process_message, hp]
  · intro hp
    simp [process_message, hp]

/-- Witness for the amended C4: both deserialization-failure legs at
concrete deliveries — invalid JSON is dead-lettered, a non-UTF-8 body is
requeued; in both cases the store is untouched and failed reaches 1. -/
theorem deserialization_failure_paths_witness :
    (process_message
        { sampleEnv with parsed := Except.error ParseError.jsonDecodeError }
        (initState 0) =
      (AckAction.nackNoRequeue,
       { initState 0 with metrics :=
          { (initState 0).metrics with
            total_failed := (initState 0).metrics.total_failed + 1 } })) ∧
    (process_message
        { sampleEnv with parsed := Except.error ParseError.unicodeDecodeError }
        (initState 0) =
      (AckAction.nackRequeue,
       { initState 0 with metrics :=
          { (initState 0).metrics with
            total_failed := (initState 0).metrics.total_failed + 1 } })) :=
  ⟨(deserialization_failure_paths
      { sampleEnv with parsed := Except.error ParseError.jsonDecodeError }
      (initState 0)).1 rfl,
   (deserialization_failure_paths
      { sampleEnv with parsed := Except.error ParseError.unicodeDecodeError }
      (initState 0)).2 rfl⟩

/-- C8: both broker connection routines (worker `setup_rabbitmq`, 5
attempts; producer `_create_connection`, 3 attempts) terminate for every
behaviour of the broker: either some attempt `n ≤ max` succeeds and the
routine returns after exactly `n` attempts, or every one of the `max`
attempts fails and the connection error is surfaced to the caller. -/
theorem broker_retry_bounded (outcome : Nat → Bool) :
    ((∃ n, 1 ≤ n ∧ n ≤ 5 ∧ outcome (n - 1) = true ∧
        setup_rabbitmq outcome = Except.ok n) ∨
      ((∀ k < 5, outcome k = false) ∧
        setup_rabbitmq outcome = Except.error ())) ∧
    ((∃ n, 1 ≤ n ∧ n ≤ 3 ∧ outcome (n - 1) = true ∧
        create_connection outcome = Except.ok n) ∨
      ((∀ k < 3, outcome k = false) ∧
        create_connection outcome = Except.error ())) := by
  constructor
  · rcases retryConnect_cases outcome 5 0 with ⟨i, hi, hsucc, _, hres⟩ | ⟨hall, hres⟩
    · exact Or.inl ⟨i + 1, by omega, by omega, by simpa using hsucc,
        by simpa [setup_rabbitmq] using hres⟩
    · exact Or.inr ⟨by simpa using hall, by simpa [setup_rabbitmq] using hres⟩
  · rcases retryConnect_cases outcome 3 0 with ⟨i, hi, hsucc, _, hres⟩ | ⟨hall, hres⟩
    · exact Or.inl ⟨i + 1, by omega, by omega, by simpa using hsucc,
        by simpa [create_connection] using hres⟩
    · exact Or.inr ⟨by simpa using hall, by simpa [create_connection] using hres⟩

end SentimentMS
